import Mathlib

/-!
Shallow embedding of the wrenchfs repository (three FUSE provider programs:
hello_fs.py, format_fs.py, wrench_fs.py).

Paths and byte payloads are modelled as `List Char` (all payloads in the
source are ASCII, so character count equals byte count).  Python exceptions
that surface as filesystem errors are modelled by `FsError`:
`FuseOSError(ENOENT)` and `FileNotFoundError` both map to `NotFound`;
`FuseOSError(EPERM)` and `PermissionError` both map to `PermissionDenied`.
-/

set_option linter.unusedVariables false

deriving instance DecidableEq for Except

/-- Filesystem-level errors raised by the providers. -/
inductive FsError
  | NotFound
  | PermissionDenied
deriving Repr, DecidableEq

/-- Attribute record returned by getattr: the Python dicts
`dict(st_mode=..., st_nlink=...)` with `st_size` present only for files. -/
structure Attr where
  st_mode : Nat
  st_nlink : Nat
  st_size : Option Nat
deriving Repr, DecidableEq

/-- Python slice `l[a:b]` for non-negative indices: drop `a`, then keep
`b - a` elements. -/
def pySlice (l : List Char) (a b : Nat) : List Char :=
  (l.drop a).take (b - a)

/-- Value of `os.O_RDONLY` on Linux. -/
def O_RDONLY : Nat := 0
/-- Value of `os.O_WRONLY` on Linux. -/
def O_WRONLY : Nat := 1
/-- Value of `os.O_RDWR` on Linux. -/
def O_RDWR : Nat := 2
/-- Value of `os.O_CREAT` on Linux. -/
def O_CREAT : Nat := 64
/-- Value of `os.O_TRUNC` on Linux. -/
def O_TRUNC : Nat := 512

/-- hello_fs.py: `hello_path = '/hello'`. -/
def HelloFS.hello_path : List Char := "/hello".toList

/-- hello_fs.py: `hello_str = b'Hello, World!\n'`. -/
def HelloFS.hello_str : List Char := "Hello, World!\n".toList

/-- hello_fs.py `HelloFS.getattr`. -/
def HelloFS.getattr (path : List Char) : Except FsError Attr :=
  if path = "/".toList then
    .ok { st_mode := 0o755 ||| 0o040000, st_nlink := 2, st_size := none }
  else if path = HelloFS.hello_path then
    .ok { st_mode := 0o444 ||| 0o100000, st_nlink := 1,
          st_size := some HelloFS.hello_str.length }
  else
    .error .NotFound

/-- hello_fs.py `HelloFS.readdir`. -/
def HelloFS.readdir (path : List Char) : Except FsError (List (List Char)) :=
  if path = "/".toList then
    .ok [".".toList, "..".toList, HelloFS.hello_path.drop 1]
  else
    .error .NotFound

/-- hello_fs.py `HelloFS.open` (named `open'` because `open` is a Lean
keyword).  `allowed_flags = O_RDONLY | O_WRONLY | O_RDWR`. -/
def HelloFS.open' (path : List Char) (flags : Nat) : Except FsError Nat :=
  if path ≠ HelloFS.hello_path then .error .NotFound
  else if flags &&& (O_RDONLY ||| O_WRONLY ||| O_RDWR) ≠ O_RDONLY then
    .error .PermissionDenied
  else .ok 0

/-- hello_fs.py `HelloFS.read`: returns `hello_str[offset:offset + size]`. -/
def HelloFS.read (path : List Char) (size offset : Nat) :
    Except FsError (List Char) :=
  if path ≠ HelloFS.hello_path then .error .NotFound
  else .ok (pySlice HelloFS.hello_str offset (offset + size))

/-- format_fs.py: `hello_path = '/hello'`. -/
def FormatFS.hello_path : List Char := "/hello".toList

/-- The string `'/hello' + '.'`, used by format_fs.py in its suffix checks. -/
def FormatFS.hello_dot : List Char := "/hello.".toList

/-- format_fs.py `content_by_format`: the fixed format-to-payload table,
in its insertion order. -/
def FormatFS.content_by_format : List (List Char × List Char) :=
  [ ("csv".toList, "greeting,recipient\nHello,World!\n".toList),
    ("txt".toList, "Hello, World!\n".toList),
    ("json".toList, "\x7b\"message\": \"Hello, World!\"\x7d\n".toList),
    ("xml".toList, "<message>Hello, World!</message>\n".toList) ]

/-- format_fs.py: `default_format = 'txt'`. -/
def FormatFS.default_format : List Char := "txt".toList

/-- Python dict indexing `t[k]` for a key known to be present (a missing key
would raise KeyError in Python; every use in the source has the key
present). -/
def FormatFS.dictGet (t : List (List Char × List Char)) (k : List Char) :
    List Char :=
  (t.lookup k).getD []

/-- format_fs.py `FormatFS.getattr`.  The literal `7` in the length guard is
taken verbatim from the source (`len(path) > 7`); the suffix loop
`for ext in self.content_by_format` is the first table entry whose full
dotted name equals the path. -/
def FormatFS.getattr (path : List Char) : Except FsError Attr :=
  if path = "/".toList then
    .ok { st_mode := 0o755 ||| 0o040000, st_nlink := 2, st_size := none }
  else if path = FormatFS.hello_path then
    .ok { st_mode := 0o444 ||| 0o100000, st_nlink := 1,
          st_size := some (FormatFS.dictGet FormatFS.content_by_format
            FormatFS.default_format).length }
  else if path.length > 7 ∧ path.take FormatFS.hello_dot.length = FormatFS.hello_dot then
    match FormatFS.content_by_format.find?
        (fun kv => path == FormatFS.hello_dot ++ kv.1) with
    | some kv =>
        .ok { st_mode := 0o444 ||| 0o100000, st_nlink := 1,
              st_size := some kv.2.length }
    | none => .error .NotFound
  else
    .error .NotFound

/-- format_fs.py `FormatFS.readdir` (raises `FileNotFoundError` off-root). -/
def FormatFS.readdir (path : List Char) : Except FsError (List (List Char)) :=
  if path = "/".toList then
    .ok [".".toList, "..".toList, FormatFS.hello_path.drop 1]
  else
    .error .NotFound

/-- format_fs.py `FormatFS.open` (named `open'` because `open` is a Lean
keyword): any path other than the bare `/hello` raises
`FileNotFoundError`. -/
def FormatFS.open' (path : List Char) (flags : Nat) : Except FsError Nat :=
  if path ≠ FormatFS.hello_path then .error .NotFound
  else if flags &&& (O_RDONLY ||| O_WRONLY ||| O_RDWR) ≠ O_RDONLY then
    .error .PermissionDenied
  else .ok 0

/-- format_fs.py `FormatFS.read`: note that `size` and `offset` are accepted
but never used — the full payload is always returned. -/
def FormatFS.read (path : List Char) (size offset : Nat) :
    Except FsError (List Char) :=
  if path = FormatFS.hello_path then
    .ok (FormatFS.dictGet FormatFS.content_by_format FormatFS.default_format)
  else if path.length > 7 ∧ path.take FormatFS.hello_dot.length = FormatFS.hello_dot then
    match FormatFS.content_by_format.lookup (path.drop FormatFS.hello_dot.length) with
    | none => .error .NotFound
    | some c => .ok c
  else
    .error .NotFound

/-- wrench_fs.py: the configuration error raised by `WrenchFS.__init__`
(a Python `ValueError`; the spec calls it ConfigurationError). -/
inductive ConfigError
  | invalidPassword
deriving Repr, DecidableEq

/-- wrench_fs.py `WrenchFS.__init__`: the credential check selecting the
backing root.  `realpath` (os.path.realpath, resolution to absolute form)
is kept abstract as a function parameter; on success the selected root is
returned, on an unrecognized password the constructor raises before any
root is assigned, modelled as `Except.error` carrying no root. -/
def WrenchFS.init (realpath : List Char → List Char) (password : List Char) :
    Except ConfigError (List Char) :=
  if password = "password1".toList then .ok (realpath "./benign".toList)
  else if password = "supersecret".toList then .ok (realpath "./secret".toList)
  else .error .invalidPassword

/-- The structural operations of wrench_fs.py, with the argument lists the
FUSE layer passes to `WrenchFS.__call__` (first argument is always the
mount-relative path fusepy hands over first). -/
inductive FsOp
  | create (path : List Char) (mode : Nat)
  | mkdir (path : List Char) (mode : Nat)
  | mknod (path : List Char) (mode : Nat) (dev : Nat)
  | unlink (path : List Char)
  | rmdir (path : List Char)
  | rename (old new : List Char)
  | symlink (target source : List Char)
  | link (target source : List Char)
  | truncate (path : List Char) (len : Nat)
  | chmod (path : List Char) (mode : Nat)
  | chown (path : List Char) (uid gid : Int)
  | utimens (path : List Char) (times : Option (Nat × Nat))
deriving Repr, DecidableEq

/-- The backing-filesystem primitive a wrench_fs.py structural method ends up
invoking, with the exact arguments passed to it.  `osOpen` is `os.open`
(used by `create`); `fileTruncate` is the `open(path, mode).truncate(length)`
call in `truncate`.  For `osRename`, `osLink` and `osSymlink` the argument
order is that of the `os` primitive. -/
inductive Syscall
  | osOpen (path : List Char) (flags : Nat) (mode : Nat)
  | osMkdir (path : List Char) (mode : Nat)
  | osMknod (path : List Char) (mode : Nat) (dev : Nat)
  | osUnlink (path : List Char)
  | osRmdir (path : List Char)
  | osRename (old new : List Char)
  | osSymlink (source target : List Char)
  | osLink (source target : List Char)
  | fileTruncate (path : List Char) (len : Nat)
  | osChmod (path : List Char) (mode : Nat)
  | osChown (path : List Char) (uid gid : Int)
  | osUtime (path : List Char) (times : Option (Nat × Nat))
deriving Repr, DecidableEq

/-- wrench_fs.py `WrenchFS.__call__`: `super().__call__(op, self.root + path,
*args)` rewrites the FIRST argument (and only the first) by prefixing the
selected root; the remaining arguments are passed through unchanged. -/
def WrenchFS.rewriteOp (root : List Char) : FsOp → FsOp
  | .create p m => .create (root ++ p) m
  | .mkdir p m => .mkdir (root ++ p) m
  | .mknod p m d => .mknod (root ++ p) m d
  | .unlink p => .unlink (root ++ p)
  | .rmdir p => .rmdir (root ++ p)
  | .rename old new => .rename (root ++ old) new
  | .symlink t s => .symlink (root ++ t) s
  | .link t s => .link (root ++ t) s
  | .truncate p l => .truncate (root ++ p) l
  | .chmod p m => .chmod (root ++ p) m
  | .chown p u g => .chown (root ++ p) u g
  | .utimens p t => .utimens (root ++ p) t

/-- The bodies of the wrench_fs.py structural methods, applied to the
(already `__call__`-rewritten) arguments: `create` calls
`os.open(path, O_WRONLY | O_CREAT | O_TRUNC, mode)`; `mkdir`, `mknod`,
`unlink`, `rmdir`, `chmod`, `chown`, `utimens` are direct aliases of the
`os` primitives; `rename` calls `os.rename(old, new)` (note: `new` is used
as received, with no root applied inside the body); `symlink` calls
`os.symlink(source, target)`; `link` calls `os.link(self.root + source,
target)`; `truncate` truncates the file at `path` to `length`. -/
def WrenchFS.methodBody (root : List Char) : FsOp → Syscall
  | .create p m => .osOpen p (O_WRONLY ||| O_CREAT ||| O_TRUNC) m
  | .mkdir p m => .osMkdir p m
  | .mknod p m d => .osMknod p m d
  | .unlink p => .osUnlink p
  | .rmdir p => .osRmdir p
  | .rename old new => .osRename old new
  | .symlink t s => .osSymlink s t
  | .link t s => .osLink (root ++ s) t
  | .truncate p l => .fileTruncate p l
  | .chmod p m => .osChmod p m
  | .chown p u g => .osChown p u g
  | .utimens p t => .osUtime p t

/-- Dispatch of one structural operation through wrench_fs.py: `__call__`
rewrites the first argument, then the named method runs on the result. -/
def WrenchFS.call (root : List Char) (op : FsOp) : Syscall :=
  WrenchFS.methodBody root (WrenchFS.rewriteOp root op)

/-- Primitive actions on shared handle state performed inside
`WrenchFS.read` / `WrenchFS.write`, including lock usage. -/
inductive HandleAction
  | acquire (lock : Nat)
  | release (lock : Nat)
  | lseek (fh : Nat) (offset : Nat) (whence : Nat)
  | transferRead (fh : Nat) (size : Nat)
  | transferWrite (fh : Nat) (data : List Char)
deriving Repr, DecidableEq

/-- The single lock object `self.rwlock` created once in
`WrenchFS.__init__` and shared by `read` and `write`. -/
def WrenchFS.rwlock : Nat := 0

/-- Results the backing filesystem gives to `os.read` / `os.write`:
`os.read(fh, size)` returns at most `size` bytes (possibly fewer) and
`os.write(fh, data)` returns the number of bytes written (possibly fewer
than `len(data)`). -/
structure Backing where
  readFrom : Nat → Nat → List Char
  writeTo : Nat → List Char → Nat

/-- A `with self.rwlock:` block: the lock is acquired, the body's actions
run, the lock is released; the body's value is the block's value. -/
def withLock {α : Type} (lock : Nat) (body : List HandleAction × α) :
    List HandleAction × α :=
  (HandleAction.acquire lock :: body.1 ++ [HandleAction.release lock], body.2)

/-- The action `os.lseek(fh, offset, 0)`. -/
def doLseek (fh offset whence : Nat) : List HandleAction × Unit :=
  ([.lseek fh offset whence], ())

/-- The action `os.read(fh, size)`, returning what the backing filesystem
transfers. -/
def doRead (b : Backing) (fh size : Nat) : List HandleAction × List Char :=
  ([.transferRead fh size], b.readFrom fh size)

/-- The action `os.write(fh, data)`, returning the count the backing
filesystem reports. -/
def doWrite (b : Backing) (fh : Nat) (data : List Char) :
    List HandleAction × Nat :=
  ([.transferWrite fh data], b.writeTo fh data)

/-- wrench_fs.py `WrenchFS.read`: under `self.rwlock`, seek to `offset`,
then one `os.read(fh, size)`, whose bytes are returned. -/
def WrenchFS.read (b : Backing) (path : List Char) (size offset fh : Nat) :
    List HandleAction × List Char :=
  withLock WrenchFS.rwlock
    (let s := doLseek fh offset 0
     let r := doRead b fh size
     (s.1 ++ r.1, r.2))

/-- wrench_fs.py `WrenchFS.write`: under `self.rwlock`, seek to `offset`,
then one `os.write(fh, data)`, whose byte count is returned. -/
def WrenchFS.write (b : Backing) (path : List Char) (data : List Char)
    (offset fh : Nat) : List HandleAction × Nat :=
  withLock WrenchFS.rwlock
    (let s := doLseek fh offset 0
     let w := doWrite b fh data
     (s.1 ++ w.1, w.2))

/-! ## Helper lemmas -/

/-- Unfolds `FormatFS.hello_dot` to its characters. -/
theorem FormatFS.hello_dot_eq :
    FormatFS.hello_dot = ['/', 'h', 'e', 'l', 'l', 'o', '.'] := rfl

/-- Unfolds `FormatFS.hello_path` to its characters. -/
theorem FormatFS.hello_path_eq :
    FormatFS.hello_path = ['/', 'h', 'e', 'l', 'l', 'o'] := rfl

/-- When a suffix is not a key of a format table, the getattr suffix loop
(first table entry whose dotted name equals the path) finds nothing. -/
theorem FormatFS.find_dotted_none (t : List (List Char × List Char))
    (s : List Char) (h : t.lookup s = none) :
    t.find? (fun kv => FormatFS.hello_dot ++ s == FormatFS.hello_dot ++ kv.1)
      = none := by
  induction t with
  | nil => rfl
  | cons kv t ih =>
      obtain ⟨k, v⟩ := kv
      by_cases hk : s = k
      · subst hk
        simp [List.lookup] at h
      · have hbk : (s == k) = false := beq_false_of_ne hk
        have h' : t.lookup s = none := by
          simpa [List.lookup, hbk] using h
        have hne : (FormatFS.hello_dot ++ s == FormatFS.hello_dot ++ k)
            = false := by
          apply beq_false_of_ne
          intro e
          exact hk (List.append_cancel_left e)
        simp [List.find?, hne, ih h']

/-! ## Claim theorems -/

/-- C2: for every suffix `s` that is not a key of the Content Table, both
attribute lookup and read on `'/hello' + '.' + s` fail with NotFound (no
fallback to the default format); the same lookup is case-sensitive, and the
prefix-extending path `/hello2` also fails with NotFound for both. -/
theorem c2_unmatched_suffix_notfound (s : List Char) (size offset : Nat)
    (h : FormatFS.content_by_format.lookup s = none) :
    FormatFS.getattr (FormatFS.hello_dot ++ s) = .error .NotFound ∧
    FormatFS.read (FormatFS.hello_dot ++ s) size offset = .error .NotFound ∧
    FormatFS.getattr "/hello2".toList = .error .NotFound ∧
    FormatFS.read "/hello2".toList size offset = .error .NotFound := by
  refine ⟨?_, ?_, by decide, rfl⟩
  · rcases s with _ | ⟨c, s'⟩
    · decide
    · have h1 : FormatFS.hello_dot ++ (c :: s') ≠ "/".toList := by
        simp [FormatFS.hello_dot_eq]
      have h2 : FormatFS.hello_dot ++ (c :: s') ≠ FormatFS.hello_path := by
        simp [FormatFS.hello_dot_eq, FormatFS.hello_path_eq]
      have h3 : (FormatFS.hello_dot ++ (c :: s')).length > 7 ∧
          (FormatFS.hello_dot ++ (c :: s')).take FormatFS.hello_dot.length
            = FormatFS.hello_dot := by
        constructor
        · simp [FormatFS.hello_dot_eq]
        · exact List.take_left _ _
      rw [FormatFS.getattr, if_neg h1, if_neg h2, if_pos h3,
        FormatFS.find_dotted_none _ _ h]
  · rcases s with _ | ⟨c, s'⟩
    · rfl
    · have h2 : FormatFS.hello_dot ++ (c :: s') ≠ FormatFS.hello_path := by
        simp [FormatFS.hello_dot_eq, FormatFS.hello_path_eq]
      have h3 : (FormatFS.hello_dot ++ (c :: s')).length > 7 ∧
          (FormatFS.hello_dot ++ (c :: s')).take FormatFS.hello_dot.length
            = FormatFS.hello_dot := by
        constructor
        · simp [FormatFS.hello_dot_eq]
        · exact List.take_left _ _
      have h4 : (FormatFS.hello_dot ++ (c :: s')).drop FormatFS.hello_dot.length
          = c :: s' := List.drop_left _ _
      rw [FormatFS.read, if_neg h2, if_pos h3, h4, h]

/-- C2 witness: the unsupported (and case-mismatched) suffix `CSV` and the
prefix-extending path `/hello2` all fail with NotFound. -/
theorem c2_witness :
    FormatFS.getattr (FormatFS.hello_dot ++ "CSV".toList) = .error .NotFound ∧
    FormatFS.read (FormatFS.hello_dot ++ "CSV".toList) 3 0 = .error .NotFound ∧
    FormatFS.getattr "/hello2".toList = .error .NotFound ∧
    FormatFS.read "/hello2".toList 3 0 = .error .NotFound :=
  c2_unmatched_suffix_notfound "CSV".toList 3 0 (by decide)

/-- C1 (the read-slicing contract, checked against both virtual providers):
hello_fs.py slices `hello_str[offset:offset + size]` and yields `[]` once
`offset` reaches the payload length, but format_fs.py ignores `size` and
`offset` and always returns the full payload — at size 5, offset 20 it
returns the whole 14-byte default payload where the contract requires the
empty slice. -/
theorem c1_read_slice_contract (sz off size offset : Nat)
    (hoff : HelloFS.hello_str.length ≤ offset) :
    HelloFS.read HelloFS.hello_path sz off
      = .ok (pySlice HelloFS.hello_str off (off + sz)) ∧
    HelloFS.read HelloFS.hello_path size offset = .ok [] ∧
    FormatFS.read FormatFS.hello_path 5 20
      = .ok (FormatFS.dictGet FormatFS.content_by_format FormatFS.default_format) ∧
    pySlice (FormatFS.dictGet FormatFS.content_by_format FormatFS.default_format)
      20 25 = [] ∧
    FormatFS.dictGet FormatFS.content_by_format FormatFS.default_format ≠ [] := by
  refine ⟨by simp [HelloFS.read], ?_, rfl, by decide, by decide⟩
  simp [HelloFS.read, pySlice, List.drop_eq_nil_of_le hoff]

/-- C1 witness: at size 3 and offset 20 (past the 14-byte payload) the
hello_fs.py read yields the empty slice. -/
theorem c1_witness :
    HelloFS.read HelloFS.hello_path 4 2
      = .ok (pySlice HelloFS.hello_str 2 (2 + 4)) ∧
    HelloFS.read HelloFS.hello_path 3 20 = .ok [] ∧
    FormatFS.read FormatFS.hello_path 5 20
      = .ok (FormatFS.dictGet FormatFS.content_by_format FormatFS.default_format) ∧
    pySlice (FormatFS.dictGet FormatFS.content_by_format FormatFS.default_format)
      20 25 = [] ∧
    FormatFS.dictGet FormatFS.content_by_format FormatFS.default_format ≠ [] :=
  c1_read_slice_contract 4 2 3 20 (by decide)

/-- C3: constructing wrench_fs.py with password1 selects the benign backing
root and with supersecret the secret backing root (each passed through
realpath), and any other credential makes construction fail with the
configuration error, yielding no root. -/
theorem c3_access_gate (realpath : List Char → List Char) (pw : List Char)
    (h1 : pw ≠ "password1".toList) (h2 : pw ≠ "supersecret".toList) :
    WrenchFS.init realpath "password1".toList
      = .ok (realpath "./benign".toList) ∧
    WrenchFS.init realpath "supersecret".toList
      = .ok (realpath "./secret".toList) ∧
    WrenchFS.init realpath pw = .error .invalidPassword := by
  refine ⟨rfl, ?_, ?_⟩
  · rw [WrenchFS.init, if_neg (by decide), if_pos rfl]
  · rw [WrenchFS.init, if_neg h1, if_neg h2]

/-- C3 witness: the unrecognized credential `hunter2` is rejected at
construction time. -/
theorem c3_witness :
    WrenchFS.init id "password1".toList = .ok (id "./benign".toList) ∧
    WrenchFS.init id "supersecret".toList = .ok (id "./secret".toList) ∧
    WrenchFS.init id "hunter2".toList = .error .invalidPassword :=
  c3_access_gate id "hunter2".toList (by decide) (by decide)

/-- C5: for each of the four supported formats the size reported by getattr
equals the byte length of that format's payload, and the bare base path
reports the byte length of the default (txt) payload. -/
theorem c5_reported_sizes :
    FormatFS.getattr "/hello.csv".toList
      = .ok { st_mode := 0o444 ||| 0o100000, st_nlink := 1,
              st_size := some (FormatFS.dictGet FormatFS.content_by_format
                "csv".toList).length } ∧
    FormatFS.getattr "/hello.txt".toList
      = .ok { st_mode := 0o444 ||| 0o100000, st_nlink := 1,
              st_size := some (FormatFS.dictGet FormatFS.content_by_format
                "txt".toList).length } ∧
    FormatFS.getattr "/hello.json".toList
      = .ok { st_mode := 0o444 ||| 0o100000, st_nlink := 1,
              st_size := some (FormatFS.dictGet FormatFS.content_by_format
                "json".toList).length } ∧
    FormatFS.getattr "/hello.xml".toList
      = .ok { st_mode := 0o444 ||| 0o100000, st_nlink := 1,
              st_size := some (FormatFS.dictGet FormatFS.content_by_format
                "xml".toList).length } ∧
    FormatFS.getattr FormatFS.hello_path
      = .ok { st_mode := 0o444 ||| 0o100000, st_nlink := 1,
              st_size := some (FormatFS.dictGet FormatFS.content_by_format
                FormatFS.default_format).length } ∧
    HelloFS.getattr HelloFS.hello_path
      = .ok { st_mode := 0o444 ||| 0o100000, st_nlink := 1,
              st_size := some HelloFS.hello_str.length } := by
  decide

/-- C6: for both virtual providers the root listing is exactly `.`, `..`,
`hello` in that order (no format-suffixed names), and listing any non-root
path fails with NotFound. -/
theorem c6_root_listing (p : List Char) (hp : p ≠ "/".toList) :
    HelloFS.readdir "/".toList
      = .ok [".".toList, "..".toList, "hello".toList] ∧
    FormatFS.readdir "/".toList
      = .ok [".".toList, "..".toList, "hello".toList] ∧
    HelloFS.readdir p = .error .NotFound ∧
    FormatFS.readdir p = .error .NotFound := by
  refine ⟨by decide, by decide, ?_, ?_⟩
  · rw [HelloFS.readdir, if_neg hp]
  · rw [FormatFS.readdir, if_neg hp]

/-- C6 witness: listing the non-root path `/hello` fails with NotFound. -/
theorem c6_witness :
    HelloFS.readdir "/".toList
      = .ok [".".toList, "..".toList, "hello".toList] ∧
    FormatFS.readdir "/".toList
      = .ok [".".toList, "..".toList, "hello".toList] ∧
    HelloFS.readdir "/hello".toList = .error .NotFound ∧
    FormatFS.readdir "/hello".toList = .error .NotFound :=
  c6_root_listing "/hello".toList (by decide)

/-- C7 (structural operations of wrench_fs.py): every single-path structural
operation delegates to its backing primitive with the path rewritten under
the root, and `link` rewrites both of its paths — but `rename` invokes the
backing rename with only `old` rewritten: the destination `new` reaches
`os.rename` without the backing root applied, so with root `/backing`,
`rename('/a', '/b')` executes `os.rename('/backing/a', '/b')` instead of
`os.rename('/backing/a', '/backing/b')`. -/
theorem c7_passthrough_delegation (root p t s old nw : List Char)
    (m d l : Nat) (u g : Int) (tm : Option (Nat × Nat)) :
    WrenchFS.call root (.create p m)
      = .osOpen (root ++ p) (O_WRONLY ||| O_CREAT ||| O_TRUNC) m ∧
    WrenchFS.call root (.mkdir p m) = .osMkdir (root ++ p) m ∧
    WrenchFS.call root (.mknod p m d) = .osMknod (root ++ p) m d ∧
    WrenchFS.call root (.unlink p) = .osUnlink (root ++ p) ∧
    WrenchFS.call root (.rmdir p) = .osRmdir (root ++ p) ∧
    WrenchFS.call root (.symlink t s) = .osSymlink s (root ++ t) ∧
    WrenchFS.call root (.link t s) = .osLink (root ++ s) (root ++ t) ∧
    WrenchFS.call root (.truncate p l) = .fileTruncate (root ++ p) l ∧
    WrenchFS.call root (.chmod p m) = .osChmod (root ++ p) m ∧
    WrenchFS.call root (.chown p u g) = .osChown (root ++ p) u g ∧
    WrenchFS.call root (.utimens p tm) = .osUtime (root ++ p) tm ∧
    WrenchFS.call root (.rename old nw) = .osRename (root ++ old) nw ∧
    WrenchFS.call "/backing".toList (.rename "/a".toList "/b".toList)
      = .osRename "/backing/a".toList "/b".toList ∧
    Syscall.osRename "/backing/a".toList "/b".toList
      ≠ .osRename "/backing/a".toList "/backing/b".toList := by
  exact ⟨rfl, rfl, rfl, rfl, rfl, rfl, rfl, rfl, rfl, rfl, rfl, rfl,
    by decide, by decide⟩

/-- C8: within wrench_fs.py `read` and `write`, the action trace is exactly
acquire the single shared `rwlock`, seek the handle to `offset`, perform one
underlying transfer, release the lock — the same lock object for read and
write on every handle — and the value returned is exactly what the
underlying `os.read` / `os.write` transferred (which may be fewer bytes than
requested). -/
theorem c8_serialized_seek_then_transfer (b : Backing)
    (path path' data : List Char) (size offset fh offset' fh' : Nat) :
    (WrenchFS.read b path size offset fh).1
      = [.acquire WrenchFS.rwlock, .lseek fh offset 0, .transferRead fh size,
         .release WrenchFS.rwlock] ∧
    (WrenchFS.read b path size offset fh).2 = b.readFrom fh size ∧
    (WrenchFS.write b path' data offset' fh').1
      = [.acquire WrenchFS.rwlock, .lseek fh' offset' 0,
         .transferWrite fh' data, .release WrenchFS.rwlock] ∧
    (WrenchFS.write b path' data offset' fh').2 = b.writeTo fh' data :=
  ⟨rfl, rfl, rfl, rfl⟩

/-- C9 counterexample: the root directory's mode as synthesized by both
virtual providers is 0o755 plus the directory bit (0o040755), not the
read-execute-for-all permission pattern 0o555 plus the directory bit
(0o040555) — the owner additionally holds the write bit. -/
theorem c9_counterexample :
    HelloFS.getattr "/".toList
      = .ok { st_mode := 0o040755, st_nlink := 2, st_size := none } ∧
    FormatFS.getattr "/".toList
      = .ok { st_mode := 0o040755, st_nlink := 2, st_size := none } ∧
    (0o040755 : Nat) ≠ 0o555 ||| 0o040000 := by
  decide

/-- C9 amended: attribute lookup on the root path of either virtual provider
always returns an entity whose mode is 0o755 (read and execute for all,
write additionally for the owner) combined with the directory type bit, and
whose link count is exactly 2. -/
theorem c9_root_directory_attrs :
    HelloFS.getattr "/".toList
      = .ok { st_mode := 0o755 ||| 0o040000, st_nlink := 2, st_size := none } ∧
    FormatFS.getattr "/".toList
      = .ok { st_mode := 0o755 ||| 0o040000, st_nlink := 2, st_size := none } ∧
    (0o755 ||| 0o040000 : Nat) &&& 0o170000 = 0o040000 ∧
    (0o755 ||| 0o040000 : Nat) &&& 0o555 = 0o555 := by
  decide

/-- C4 counterexample: `/hello.json` is a synthetic entity of format_fs.py
(its attribute lookup succeeds), yet opening it with the write-intent flag
O_WRONLY fails with NotFound, not PermissionDenied. -/
theorem c4_counterexample :
    (FormatFS.getattr "/hello.json".toList).isOk = true ∧
    FormatFS.open' "/hello.json".toList O_WRONLY = .error .NotFound ∧
    FsError.NotFound ≠ FsError.PermissionDenied := by
  decide

/-- C4 amended: on both virtual providers, open succeeds only when the path
classifies to a synthetic entity (its getattr succeeds) and the requested
access mode is read-only; and on the bare base path every write-intent flag
fails with PermissionDenied.  (Format-suffixed synthetic paths of
format_fs.py instead fail open with NotFound, see the counterexample.) -/
theorem c4_open_readonly (p q : List Char) (f g w a c : Nat)
    (h1 : HelloFS.open' p f = .ok a)
    (h2 : FormatFS.open' q g = .ok c)
    (hw : w &&& (O_RDONLY ||| O_WRONLY ||| O_RDWR) ≠ O_RDONLY) :
    ((HelloFS.getattr p).isOk = true ∧
      f &&& (O_RDONLY ||| O_WRONLY ||| O_RDWR) = O_RDONLY) ∧
    ((FormatFS.getattr q).isOk = true ∧
      g &&& (O_RDONLY ||| O_WRONLY ||| O_RDWR) = O_RDONLY) ∧
    HelloFS.open' HelloFS.hello_path w = .error .PermissionDenied ∧
    FormatFS.open' FormatFS.hello_path w = .error .PermissionDenied := by
  refine ⟨?_, ?_, ?_, ?_⟩
  · by_cases hp : p = HelloFS.hello_path
    · subst hp
      by_cases hf : f &&& (O_RDONLY ||| O_WRONLY ||| O_RDWR) = O_RDONLY
      · exact ⟨by decide, hf⟩
      · rw [HelloFS.open', if_neg (by simp), if_pos hf] at h1
        simp at h1
    · rw [HelloFS.open', if_pos hp] at h1
      simp at h1
  · by_cases hq : q = FormatFS.hello_path
    · subst hq
      by_cases hg : g &&& (O_RDONLY ||| O_WRONLY ||| O_RDWR) = O_RDONLY
      · exact ⟨by decide, hg⟩
      · rw [FormatFS.open', if_neg (by simp), if_pos hg] at h2
        simp at h2
    · rw [FormatFS.open', if_pos hq] at h2
      simp at h2
  · rw [HelloFS.open', if_neg (by simp), if_pos hw]
  · rw [FormatFS.open', if_neg (by simp), if_pos hw]

/-- C4 witness: a successful read-only open of `/hello` on both providers,
and the write-intent flag O_WRONLY rejected with PermissionDenied on the
base path of both providers. -/
theorem c4_witness :
    ((HelloFS.getattr HelloFS.hello_path).isOk = true ∧
      (0 : Nat) &&& (O_RDONLY ||| O_WRONLY ||| O_RDWR) = O_RDONLY) ∧
    ((FormatFS.getattr FormatFS.hello_path).isOk = true ∧
      (0 : Nat) &&& (O_RDONLY ||| O_WRONLY ||| O_RDWR) = O_RDONLY) ∧
    HelloFS.open' HelloFS.hello_path O_WRONLY = .error .PermissionDenied ∧
    FormatFS.open' FormatFS.hello_path O_WRONLY = .error .PermissionDenied :=
  c4_open_readonly HelloFS.hello_path FormatFS.hello_path 0 0 O_WRONLY 0 0
    (by decide) (by decide) (by decide)

/-- C10: format_fs.py open succeeds (with handle 0) only when the path is
exactly the bare `/hello`: opening `/hello.json` read-only fails with
NotFound even though attribute lookup succeeds for it and read returns the
json payload — the format-suffixed representation is readable but not
openable. -/
theorem c10_suffix_readable_not_openable (p : List Char) (f a sz off : Nat)
    (h : FormatFS.open' p f = .ok a) :
    (p = FormatFS.hello_path ∧ a = 0) ∧
    FormatFS.open' "/hello.json".toList O_RDONLY = .error .NotFound ∧
    (FormatFS.getattr "/hello.json".toList).isOk = true ∧
    FormatFS.read "/hello.json".toList sz off
      = .ok (FormatFS.dictGet FormatFS.content_by_format "json".toList) := by
  refine ⟨?_, by decide, by decide, rfl⟩
  by_cases hp : p = FormatFS.hello_path
  · subst hp
    by_cases hf : f &&& (O_RDONLY ||| O_WRONLY ||| O_RDWR) = O_RDONLY
    · rw [FormatFS.open', if_neg (by simp), if_neg (by simpa using hf)] at h
      exact ⟨rfl, by injection h with h; exact h.symm⟩
    · rw [FormatFS.open', if_neg (by simp), if_pos hf] at h
      simp at h
  · rw [FormatFS.open', if_pos hp] at h
    simp at h

/-- C10 witness: the read-only open of the bare `/hello` returns handle 0,
while `/hello.json` is readable (getattr and read succeed) but not
openable. -/
theorem c10_witness :
    (FormatFS.hello_path = FormatFS.hello_path ∧ (0 : Nat) = 0) ∧
    FormatFS.open' "/hello.json".toList O_RDONLY = .error .NotFound ∧
    (FormatFS.getattr "/hello.json".toList).isOk = true ∧
    FormatFS.read "/hello.json".toList 4 2
      = .ok (FormatFS.dictGet FormatFS.content_by_format "json".toList) :=
  c10_suffix_readable_not_openable FormatFS.hello_path O_RDONLY 0 4 2
    (by decide)
